import Mathlib

/-!
# Verification of the ml-dashboard snapshot-capture and change-detection core

Shallow embedding of the history-tracking subsystem of `src/server.js`
(the POST /api/history/capture handler, lines 252-312, and the
GET /api/history/changes handler, lines 236-249) over the SQLite schema
declared in `src/unnamed/part_000` (tables snapshots, anuncios, alteracoes).

Modelling choices:
* SQL REAL prices are embedded as rationals (ℚ); the JavaScript expression
  (current.preco - prev.preco) / prev.preco * 100 is embedded with explicit
  IEEE-style special values (Infinity / NaN) via the JsNum type, because the
  code divides by prev.preco without guarding against zero.
* Number.prototype.toFixed(2) is embedded as rounding to 2 decimal places
  picking the larger value at ties (ECMA-262 toFixed), leaving Infinity and
  NaN untouched.
* The database is a record of three row lists plus the AUTOINCREMENT
  counters; each db.prepare(...).run(...) is one pure state transition.
  better-sqlite3 autocommits every statement (the handler opens no
  transaction), so every intermediate state is a durable, queryable state.
* Timestamps (captured_at, detectado_em, DEFAULT CURRENT_TIMESTAMP) are an
  abstract integer clock passed in as a parameter.
-/

section RatReducibility
/- Batteries marks the rational-number operations irreducible, which blocks
concrete evaluation of the embedded code by decide and rfl; restore the
default reducibility for them. -/
set_option allowUnsafeReducibility true in
attribute [semireducible] Rat.add Rat.sub Rat.mul Rat.div Rat.neg Rat.inv
end RatReducibility

/-- A JavaScript number as it matters to this code: a finite rational or one
of the special values produced by dividing a nonzero number by zero
(Infinity, -Infinity) or zero by zero (NaN). -/
inductive JsNum where
  | fin (q : ℚ)
  | posInf
  | negInf
  | nan
deriving DecidableEq

/-- JavaScript division `a / b` for finite operands: division by zero yields
Infinity, -Infinity or NaN according to the sign of the numerator. -/
def jsDivFin (a b : ℚ) : JsNum :=
  if b = 0 then
    if a = 0 then JsNum.nan
    else if 0 < a then JsNum.posInf
    else JsNum.negInf
  else JsNum.fin (a / b)

/-- JavaScript multiplication of an intermediate result by the literal 100:
finite values scale, Infinity and NaN are absorbing. -/
def jsMul100 : JsNum → JsNum
  | JsNum.fin q => JsNum.fin (q * 100)
  | JsNum.posInf => JsNum.posInf
  | JsNum.negInf => JsNum.negInf
  | JsNum.nan => JsNum.nan

/-- Round a rational to 2 decimal places, ties going to the larger value,
as Number.prototype.toFixed(2) does on finite values. -/
def round2 (q : ℚ) : ℚ := ((Int.floor (q * 100 + 1/2) : ℤ) : ℚ) / 100

/-- toFixed(2) on a JavaScript number: rounds finite values, serialises
Infinity / NaN verbatim (the special value propagates into the stored row). -/
def toFixed2 : JsNum → JsNum
  | JsNum.fin q => JsNum.fin (round2 q)
  | JsNum.posInf => JsNum.posInf
  | JsNum.negInf => JsNum.negInf
  | JsNum.nan => JsNum.nan

/-- server.js line 296: ((current.preco - prev.preco) / prev.preco * 100).toFixed(2). -/
def variacaoPct (curPreco prevPreco : ℚ) : JsNum :=
  toFixed2 (jsMul100 (jsDivFin (curPreco - prevPreco) prevPreco))

/-- A listing as fetched from the marketplace API (the fields of one element
of `listings` that the capture handler reads). -/
structure Item where
  id : String
  title : String
  price : ℚ
  available_quantity : Int
  sold_quantity : Int
  category_id : String
  status : String
  thumbnail : String
deriving DecidableEq

/-- One row of the snapshots table (schema in src/unnamed/part_000 lines
17-26). `data` keeps the verbatim listing payload; `ticket_medio` is the
REAL column the INSERT at server.js lines 266-269 never mentions, so it
takes its NULL default. -/
structure SnapshotRow where
  id : Nat
  seller_id : String
  captured_at : Int
  total_anuncios : Int
  total_vendas : Int
  ticket_medio : Option ℚ
  data : List Item
deriving DecidableEq

/-- One row of the anuncios table (schema lines 28-41). -/
structure AnuncioRow where
  id : Nat
  snapshot_id : Nat
  ml_item_id : String
  titulo : String
  preco : ℚ
  estoque : Int
  vendidos : Int
  categoria : String
  status : String
  thumbnail_url : String
deriving DecidableEq

/-- The change types the detection pass actually writes ('novo', 'preco',
'titulo'; 'categoria' and 'pausado' appear only in the schema comment). -/
inductive Tipo where
  | novo
  | preco
  | titulo
deriving DecidableEq

/-- A value stored in the TEXT columns valor_anterior / valor_novo: either a
title string or a price number. -/
inductive Value where
  | str (s : String)
  | num (q : ℚ)
deriving DecidableEq

/-- One row of the alteracoes table (schema lines 46-56). Columns not named
by a given INSERT keep their NULL default. -/
structure AlteracaoRow where
  id : Nat
  ml_item_id : String
  tipo : Tipo
  valor_anterior : Option Value
  valor_novo : Option Value
  variacao_pct : Option JsNum
  detectado_em : Int
  vendas_antes : Option Int
  vendas_depois : Option Int
deriving DecidableEq

/-- The INSERT payload the detection loop passes for one change record,
before the id and the detectado_em default are assigned. -/
structure NewAlteracao where
  ml_item_id : String
  tipo : Tipo
  valor_anterior : Option Value
  valor_novo : Option Value
  variacao_pct : Option JsNum
  vendas_antes : Option Int
  vendas_depois : Option Int
deriving DecidableEq

/-- The whole SQLite database: the three row lists in insertion order plus
the AUTOINCREMENT counters. -/
structure DB where
  snapshots : List SnapshotRow
  anuncios : List AnuncioRow
  alteracoes : List AlteracaoRow
  nextSnapshotId : Nat
  nextAnuncioId : Nat
  nextAlteracaoId : Nat
deriving DecidableEq

/-- A freshly created database: empty tables, AUTOINCREMENT starting at 1. -/
def DB.empty : DB := ⟨[], [], [], 1, 1, 1⟩

/-- server.js line 288: new Map(prevItems.map(i => [i.ml_item_id, i])) then
prevMap.get(k). Map construction inserts left to right, a later entry with
the same key overwrites an earlier one, so get returns the last match. -/
def lastWithId (l : List AnuncioRow) (k : String) : Option AnuncioRow :=
  l.foldl (fun acc i => if i.ml_item_id = k then some i else acc) none

/-- server.js lines 291-304: the body of the diff loop for one current row.
If the item is absent from the previous map a 'novo' record is written;
otherwise a 'preco' record when |current.preco - prev.preco| > 0.01 and a
'titulo' record when the titles differ, in that order. -/
def diffOne (prevItems : List AnuncioRow) (current : AnuncioRow) : List NewAlteracao :=
  match lastWithId prevItems current.ml_item_id with
  | none =>
      [⟨current.ml_item_id, Tipo.novo, none, some (Value.str current.titulo), none, none, none⟩]
  | some prev =>
      (if |current.preco - prev.preco| > 1/100 then
        [⟨current.ml_item_id, Tipo.preco, some (Value.num prev.preco),
          some (Value.num current.preco),
          some (variacaoPct current.preco prev.preco),
          some prev.vendidos, some current.vendidos⟩]
      else []) ++
      (if current.titulo ≠ prev.titulo then
        [⟨current.ml_item_id, Tipo.titulo, some (Value.str prev.titulo),
          some (Value.str current.titulo), none, none, none⟩]
      else [])

/-- server.js lines 290-305: the diff loop over currentItems, emitting the
records of each current row in iteration order. -/
def detect (currentItems prevItems : List AnuncioRow) : List NewAlteracao :=
  match currentItems with
  | [] => []
  | c :: rest => diffOne prevItems c ++ detect rest prevItems

/-- server.js line 263: listings.reduce((sum, i) => sum + (i.sold_quantity || 0), 0). -/
def totalVendas (listings : List Item) : Int :=
  (listings.map (fun i => i.sold_quantity)).sum

/-- server.js lines 266-271: INSERT INTO snapshots (seller_id,
total_anuncios, total_vendas, data) VALUES (?, ?, ?, ?); captured_at takes
the CURRENT_TIMESTAMP default and ticket_medio its NULL default. Returns
the updated database and lastInsertRowid. -/
def insertSnapshot (db : DB) (now : Int) (sellerId : String) (listings : List Item) :
    DB × Nat :=
  let sid := db.nextSnapshotId
  let row : SnapshotRow :=
    ⟨sid, sellerId, now, (listings.length : Int), totalVendas listings, none, listings⟩
  ({ db with snapshots := db.snapshots ++ [row], nextSnapshotId := sid + 1 }, sid)

/-- server.js lines 274-280: one INSERT INTO anuncios for one listing. -/
def insertAnuncio (db : DB) (sid : Nat) (item : Item) : DB :=
  let row : AnuncioRow :=
    ⟨db.nextAnuncioId, sid, item.id, item.title, item.price, item.available_quantity,
      item.sold_quantity, item.category_id, item.status, item.thumbnail⟩
  { db with anuncios := db.anuncios ++ [row], nextAnuncioId := db.nextAnuncioId + 1 }

/-- server.js lines 273-281: for (const item of listings) insert into anuncios. -/
def insertAnunciosLoop (db : DB) (sid : Nat) : List Item → DB
  | [] => db
  | item :: rest => insertAnunciosLoop (insertAnuncio db sid item) sid rest

/-- server.js line 284: SELECT id FROM snapshots WHERE id < ? ORDER BY id
DESC LIMIT 1 — the stored snapshot with the greatest id strictly below the
given one, if any. -/
def prevSnapshotLookup (db : DB) (sid : Nat) : Option SnapshotRow :=
  (db.snapshots.filter (fun s => s.id < sid)).foldl
    (fun acc s =>
      match acc with
      | none => some s
      | some b => if b.id < s.id then some s else some b)
    none

/-- server.js lines 286-287: SELECT * FROM anuncios WHERE snapshot_id = ?. -/
def anunciosOf (db : DB) (sid : Nat) : List AnuncioRow :=
  db.anuncios.filter (fun a => a.snapshot_id = sid)

/-- One INSERT INTO alteracoes: the id counter advances and detectado_em
takes the CURRENT_TIMESTAMP default. -/
def insertAlteracao (db : DB) (now : Int) (r : NewAlteracao) : DB :=
  let row : AlteracaoRow :=
    ⟨db.nextAlteracaoId, r.ml_item_id, r.tipo, r.valor_anterior, r.valor_novo,
      r.variacao_pct, now, r.vendas_antes, r.vendas_depois⟩
  { db with alteracoes := db.alteracoes ++ [row], nextAlteracaoId := db.nextAlteracaoId + 1 }

/-- The alteracoes INSERTs issued by the diff loop, in detection order. -/
def insertAlteracoesLoop (db : DB) (now : Int) : List NewAlteracao → DB
  | [] => db
  | r :: rest => insertAlteracoesLoop (insertAlteracao db now r) now rest

/-- The JSON body of a successful capture response (server.js line 308). -/
structure CaptureResult where
  snapshotId : Nat
  itemCount : Nat
deriving DecidableEq

/-- server.js lines 263-308: one capture cycle over an already fetched
listing set — insert the snapshot, insert its anuncios rows, look up the
previous snapshot, and if one exists run the diff loop and insert its
change records; finally answer success with the snapshot id and count. -/
def captureCycle (db : DB) (now : Int) (sellerId : String) (listings : List Item) :
    DB × CaptureResult :=
  let step1 := insertSnapshot db now sellerId listings
  let db1 := step1.1
  let sid := step1.2
  let db2 := insertAnunciosLoop db1 sid listings
  let db3 :=
    match prevSnapshotLookup db2 sid with
    | none => db2
    | some prev =>
        let currentItems := anunciosOf db2 sid
        let prevItems := anunciosOf db2 prev.id
        insertAlteracoesLoop db2 now (detect currentItems prevItems)
  (db3, ⟨sid, listings.length⟩)

/-- One output row of GET /api/history/changes: a.* plus s.captured_at as
snapshot_date (NULL when a LEFT JOIN finds no partner). -/
structure ChangeQueryRow where
  alt : AlteracaoRow
  snapshot_date : Option Int
deriving DecidableEq

/-- The rows the LEFT JOIN pair produces for one alteracoes row: one row per
anuncios row sharing the ml_item_id — each carrying that row's snapshot's
captured_at — or a single row with NULL date when no anuncios row matches. -/
def joinRowsFor (db : DB) (a : AlteracaoRow) : List ChangeQueryRow :=
  match db.anuncios.filter (fun an => an.ml_item_id = a.ml_item_id) with
  | [] => [⟨a, none⟩]
  | ans =>
      ans.map (fun an =>
        ⟨a, (db.snapshots.find? (fun s => s.id = an.snapshot_id)).map
          (fun s => s.captured_at)⟩)

/-- Output ordering of the changes query: detectado_em descending. -/
def changesDesc (x y : ChangeQueryRow) : Prop :=
  y.alt.detectado_em ≤ x.alt.detectado_em

instance : DecidableRel changesDesc := fun x y =>
  inferInstanceAs (Decidable (y.alt.detectado_em ≤ x.alt.detectado_em))

instance : IsTotal ChangeQueryRow changesDesc :=
  ⟨fun x y => le_total y.alt.detectado_em x.alt.detectado_em⟩

instance : IsTrans ChangeQueryRow changesDesc :=
  ⟨fun _ _ _ h1 h2 => le_trans h2 h1⟩

/-- server.js lines 239-247: SELECT a.*, s.captured_at FROM alteracoes a
LEFT JOIN anuncios an ON a.ml_item_id = an.ml_item_id LEFT JOIN snapshots s
ON an.snapshot_id = s.id WHERE a.detectado_em >= cutoff ORDER BY
a.detectado_em DESC LIMIT 100. The cutoff stands for datetime('now', '-days
days'). -/
def changesQuery (db : DB) (cutoff : Int) : List ChangeQueryRow :=
  let rows :=
    (db.alteracoes.filter (fun a => cutoff ≤ a.detectado_em)).flatMap (joinRowsFor db)
  (rows.insertionSort changesDesc).take 100

/-! ## Derived characterisations of the write loops -/

/-- The anuncios rows the insert loop appends for a listing set: one row per
listing, ids counting up from the given AUTOINCREMENT value. -/
def mkAnuncioRows (sid : Nat) (startId : Nat) : List Item → List AnuncioRow
  | [] => []
  | i :: rest =>
      ⟨startId, sid, i.id, i.title, i.price, i.available_quantity, i.sold_quantity,
        i.category_id, i.status, i.thumbnail⟩ :: mkAnuncioRows sid (startId + 1) rest

theorem insertAnunciosLoop_eq (sid : Nat) :
    ∀ (ls : List Item) (db : DB),
      insertAnunciosLoop db sid ls =
        { db with
            anuncios := db.anuncios ++ mkAnuncioRows sid db.nextAnuncioId ls,
            nextAnuncioId := db.nextAnuncioId + ls.length } := by
  intro ls
  induction ls with
  | nil => intro db; simp [insertAnunciosLoop, mkAnuncioRows]
  | cons i rest ih =>
      intro db
      rw [insertAnunciosLoop, ih]
      simp [insertAnuncio, mkAnuncioRows, List.append_assoc]
      omega

/-- The alteracoes rows the detection loop appends for a record list. -/
def mkAlteracaoRows (now : Int) (startId : Nat) : List NewAlteracao → List AlteracaoRow
  | [] => []
  | r :: rest =>
      ⟨startId, r.ml_item_id, r.tipo, r.valor_anterior, r.valor_novo, r.variacao_pct,
        now, r.vendas_antes, r.vendas_depois⟩ :: mkAlteracaoRows now (startId + 1) rest

theorem insertAlteracoesLoop_eq (now : Int) :
    ∀ (rs : List NewAlteracao) (db : DB),
      insertAlteracoesLoop db now rs =
        { db with
            alteracoes := db.alteracoes ++ mkAlteracaoRows now db.nextAlteracaoId rs,
            nextAlteracaoId := db.nextAlteracaoId + rs.length } := by
  intro rs
  induction rs with
  | nil => intro db; simp [insertAlteracoesLoop, mkAlteracaoRows]
  | cons r rest ih =>
      intro db
      rw [insertAlteracoesLoop, ih]
      simp [insertAlteracao, mkAlteracaoRows, List.append_assoc]
      omega

theorem mkAnuncioRows_snapshot_id (sid : Nat) :
    ∀ (ls : List Item) (startId : Nat) (a : AnuncioRow),
      a ∈ mkAnuncioRows sid startId ls → a.snapshot_id = sid := by
  intro ls
  induction ls with
  | nil => intro startId a h; simp [mkAnuncioRows] at h
  | cons i rest ih =>
      intro startId a h
      rw [mkAnuncioRows] at h
      rcases List.mem_cons.mp h with h1 | h2
      · rw [h1]
      · exact ih (startId + 1) a h2

theorem mkAnuncioRows_item_ids (sid : Nat) :
    ∀ (ls : List Item) (startId : Nat),
      (mkAnuncioRows sid startId ls).map (fun a => a.ml_item_id) =
        ls.map (fun i => i.id) := by
  intro ls
  induction ls with
  | nil => intro startId; simp [mkAnuncioRows]
  | cons i rest ih => intro startId; simp [mkAnuncioRows, ih]

/-- The anuncios rows of the fresh snapshot, read back by the diff loop, are
exactly the rows just written for the fetched listings, provided no
pre-existing row already carries the fresh snapshot id. -/
theorem anunciosOf_after_loop (db : DB) (sid : Nat) (ls : List Item)
    (hfresh : ∀ a ∈ db.anuncios, a.snapshot_id ≠ sid) :
    anunciosOf (insertAnunciosLoop db sid ls) sid =
      mkAnuncioRows sid db.nextAnuncioId ls := by
  rw [insertAnunciosLoop_eq, anunciosOf]
  simp only [List.filter_append]
  rw [List.filter_eq_nil_iff.mpr, List.filter_eq_self.mpr, List.nil_append]
  · intro a ha
    simp [mkAnuncioRows_snapshot_id sid ls db.nextAnuncioId a ha]
  · intro a ha
    simp [hfresh a ha]

/-- Every record the diff body emits for one current row carries that row's
ml_item_id, and its optional columns follow the shape of the INSERT that
produced it (novo: only valor_novo; preco: all columns with the sold counts
taken from the matched pair; titulo: only the two values). -/
theorem diffOne_mem_spec (prevItems : List AnuncioRow) (c : AnuncioRow) :
    ∀ r ∈ diffOne prevItems c,
      r.ml_item_id = c.ml_item_id ∧
      (r.tipo = Tipo.preco →
        ∃ p, lastWithId prevItems c.ml_item_id = some p ∧
          r.vendas_antes = some p.vendidos ∧ r.vendas_depois = some c.vendidos) ∧
      (r.tipo ≠ Tipo.preco → r.vendas_antes = none ∧ r.vendas_depois = none) ∧
      (r.tipo = Tipo.novo →
        r.valor_anterior = none ∧ r.variacao_pct = none ∧
          r.valor_novo = some (Value.str c.titulo)) := by
  intro r hr
  unfold diffOne at hr
  cases hl : lastWithId prevItems c.ml_item_id with
  | none =>
      rw [hl] at hr
      simp only [List.mem_singleton] at hr
      subst hr
      simp
  | some p =>
      rw [hl] at hr
      rcases List.mem_append.mp hr with h | h
      · split at h
        · simp only [List.mem_singleton] at h
          subst h
          refine ⟨rfl, fun _ => ⟨p, rfl, rfl, rfl⟩, fun hne => absurd rfl hne, fun hn => ?_⟩
          cases hn
        · simp at h
      · split at h
        · simp only [List.mem_singleton] at h
          subst h
          refine ⟨rfl, fun hp => ?_, fun _ => ⟨rfl, rfl⟩, fun hn => ?_⟩
          · cases hp
          · cases hn
        · simp at h

/-- Every record detection emits comes from the diff body applied to some
row of currentItems. -/
theorem detect_mem (prevItems : List AnuncioRow) :
    ∀ (currentItems : List AnuncioRow), ∀ r ∈ detect currentItems prevItems,
      ∃ c ∈ currentItems, r ∈ diffOne prevItems c := by
  intro cur
  induction cur with
  | nil => intro r hr; simp [detect] at hr
  | cons c rest ih =>
      intro r hr
      rw [detect] at hr
      rcases List.mem_append.mp hr with h | h
      · exact ⟨c, List.mem_cons_self c rest, h⟩
      · obtain ⟨d, hd, hrd⟩ := ih r h
        exact ⟨d, List.mem_cons_of_mem c hd, hrd⟩

/-! ## Concrete fixtures used by the witnesses and counterexamples -/

/-- A previous-snapshot listing row of item "A" at the given price. -/
def prevRowA (pr : ℚ) : AnuncioRow := ⟨1, 1, "A", "Widget", pr, 5, 2, "c1", "active", "u"⟩

/-- A current-snapshot listing row of item "A" at the given price. -/
def curRowA (pr : ℚ) : AnuncioRow := ⟨2, 2, "A", "Widget", pr, 5, 7, "c1", "active", "u"⟩

/-- A fetched listing payload with a chosen item id, title and price. -/
def mkItem (id : String) (t : String) (pr : ℚ) : Item := ⟨id, t, pr, 5, 2, "c1", "active", "u"⟩

/-- The combined SELECT-MAX lookup of server.js line 284 finds nothing when
no stored snapshot has an id strictly below the given one. -/
theorem prevSnapshotLookup_none (db : DB) (sid : Nat)
    (h : ∀ s ∈ db.snapshots, ¬ s.id < sid) : prevSnapshotLookup db sid = none := by
  unfold prevSnapshotLookup
  rw [List.filter_eq_nil_iff.mpr]
  · rfl
  · intro s hs
    simpa using h s hs

/-- The snapshots row the capture INSERT creates: fetched listing count,
summed sold counts, NULL ticket_medio, verbatim payload copy. -/
def newSnapshotRow (db : DB) (now : Int) (sellerId : String) (ls : List Item) : SnapshotRow :=
  ⟨db.nextSnapshotId, sellerId, now, (ls.length : Int), totalVendas ls, none, ls⟩

theorem captureCycle_snapshots (db : DB) (now : Int) (sellerId : String) (ls : List Item) :
    (captureCycle db now sellerId ls).1.snapshots =
      db.snapshots ++ [newSnapshotRow db now sellerId ls] := by
  simp only [captureCycle, insertSnapshot, insertAnunciosLoop_eq, newSnapshotRow, totalVendas]
  split
  · rfl
  · rw [insertAlteracoesLoop_eq]

theorem captureCycle_result (db : DB) (now : Int) (sellerId : String) (ls : List Item) :
    (captureCycle db now sellerId ls).2 = ⟨db.nextSnapshotId, ls.length⟩ := by
  simp only [captureCycle, insertSnapshot]

theorem captureCycle_anuncios (db : DB) (now : Int) (sellerId : String) (ls : List Item) :
    (captureCycle db now sellerId ls).1.anuncios =
      db.anuncios ++ mkAnuncioRows db.nextSnapshotId db.nextAnuncioId ls := by
  simp only [captureCycle, insertSnapshot, insertAnunciosLoop_eq]
  split
  · rfl
  · rw [insertAlteracoesLoop_eq]

/-- On a first-ever capture (no stored snapshot id below the fresh one) the
previous-snapshot lookup is empty, the diff branch is skipped and the
alteracoes table is left untouched. -/
theorem captureCycle_alteracoes_first (db : DB) (now : Int) (sellerId : String)
    (ls : List Item) (hfirst : ∀ s ∈ db.snapshots, ¬ s.id < db.nextSnapshotId) :
    (captureCycle db now sellerId ls).1.alteracoes = db.alteracoes := by
  have hlk : prevSnapshotLookup
      (insertAnunciosLoop (insertSnapshot db now sellerId ls).1
        (insertSnapshot db now sellerId ls).2 ls)
      (insertSnapshot db now sellerId ls).2 = none := by
    apply prevSnapshotLookup_none
    rw [insertAnunciosLoop_eq]
    simp only [insertSnapshot]
    intro s hs
    rcases List.mem_append.mp hs with h1 | h1
    · exact hfirst s h1
    · simp only [List.mem_singleton] at h1
      subst h1
      simp
  simp only [captureCycle, hlk]
  rw [insertAnunciosLoop_eq]
  simp only [insertSnapshot]

/-- The listing rows stored under the fresh snapshot id after a capture are
exactly the rows written for the fetched listings, provided no pre-existing
row already carried that id. -/
theorem captureCycle_anunciosOf (db : DB) (now : Int) (sellerId : String) (ls : List Item)
    (hfresh : ∀ a ∈ db.anuncios, a.snapshot_id ≠ db.nextSnapshotId) :
    anunciosOf (captureCycle db now sellerId ls).1 db.nextSnapshotId =
      mkAnuncioRows db.nextSnapshotId db.nextAnuncioId ls := by
  have hb : (captureCycle db now sellerId ls).1.anuncios =
      db.anuncios ++ mkAnuncioRows db.nextSnapshotId db.nextAnuncioId ls :=
    captureCycle_anuncios db now sellerId ls
  rw [anunciosOf, hb, List.filter_append,
    List.filter_eq_nil_iff.mpr (fun a ha => by simp [hfresh a ha]),
    List.filter_eq_self.mpr (fun a ha => by
      simp [mkAnuncioRows_snapshot_id db.nextSnapshotId ls db.nextAnuncioId a ha]),
    List.nil_append]

/-- Every output row the LEFT-JOIN pair produces for one alteracoes row
carries that row in its a.* columns. -/
theorem joinRowsFor_alt (db : DB) (a : AlteracaoRow) :
    ∀ r ∈ joinRowsFor db a, r.alt = a := by
  intro r hr
  unfold joinRowsFor at hr
  split at hr
  · simp only [List.mem_singleton] at hr
    subst hr
    rfl
  · obtain ⟨an, _, he⟩ := List.mem_map.mp hr
    rw [← he]

/-- Fixture for the changes-query counterexample: item "A" appears in two
snapshots, captured at times 5 and 9, and has exactly one change record
(detected at time 9). -/
def chgExDB : DB :=
  ⟨[⟨1, "s", 5, 1, 0, none, []⟩, ⟨2, "s", 9, 1, 0, none, []⟩],
   [⟨1, 1, "A", "T", 10, 5, 2, "c", "active", "u"⟩,
    ⟨2, 2, "A", "T", 10, 5, 2, "c", "active", "u"⟩],
   [⟨1, "A", Tipo.titulo, some (Value.str "S"), some (Value.str "T"), none, 9, none, none⟩],
   3, 3, 2⟩

/-! ## Claim theorems -/

/-- Claim C1: for a pair of listings with the same itemId the detector emits
a price record if and only if |current price - previous price| > 0.01; the
record carries previousValue = previous price, newValue = current price and
percentVariation = the difference over the previous price times 100,
rounded to 2 decimal places (stated for nonzero previous price, where the
claimed formula is defined); concretely, 100.00 to 110.00 yields exactly
one price record with percentVariation 10.00, and 100.00 to 100.005 yields
no record. -/
theorem priceChange_iff_beyond_tolerance (c p : AnuncioRow)
    (h : c.ml_item_id = p.ml_item_id) :
    ((∃ r ∈ detect [c] [p], r.tipo = Tipo.preco) ↔ 1/100 < |c.preco - p.preco|) ∧
    (p.preco ≠ 0 → 1/100 < |c.preco - p.preco| →
      ∃ r ∈ detect [c] [p], r.tipo = Tipo.preco ∧
        r.valor_anterior = some (Value.num p.preco) ∧
        r.valor_novo = some (Value.num c.preco) ∧
        r.variacao_pct = some (JsNum.fin (round2 ((c.preco - p.preco) / p.preco * 100)))) ∧
    (detect [curRowA 110] [prevRowA 100]).map
        (fun r => (r.tipo, r.valor_anterior, r.valor_novo, r.variacao_pct)) =
      [(Tipo.preco, some (Value.num 100), some (Value.num 110), some (JsNum.fin 10))] ∧
    detect [curRowA (100 + 1/200)] [prevRowA 100] = [] := by
  have hl : lastWithId [p] c.ml_item_id = some p := by simp [lastWithId, h]
  have hd2 : detect [c] [p] =
      (if 1/100 < |c.preco - p.preco| then
        [⟨c.ml_item_id, Tipo.preco, some (Value.num p.preco), some (Value.num c.preco),
          some (variacaoPct c.preco p.preco), some p.vendidos, some c.vendidos⟩]
      else []) ++
      (if c.titulo ≠ p.titulo then
        [⟨c.ml_item_id, Tipo.titulo, some (Value.str p.titulo),
          some (Value.str c.titulo), none, none, none⟩]
      else []) := by
    simp [detect, diffOne, hl]
  refine ⟨?_, ?_, by decide, by decide⟩
  · rw [hd2]
    constructor
    · rintro ⟨r, hr, htipo⟩
      rcases List.mem_append.mp hr with h1 | h1
      · split at h1
        · assumption
        · simp at h1
      · split at h1
        · simp only [List.mem_singleton] at h1
          subst h1
          cases htipo
        · simp at h1
    · intro hc
      exact ⟨⟨c.ml_item_id, Tipo.preco, some (Value.num p.preco), some (Value.num c.preco),
          some (variacaoPct c.preco p.preco), some p.vendidos, some c.vendidos⟩,
        List.mem_append.mpr (Or.inl (by rw [if_pos hc]; exact List.mem_singleton.mpr rfl)), rfl⟩
  · intro hp0 hc
    rw [hd2]
    refine ⟨⟨c.ml_item_id, Tipo.preco, some (Value.num p.preco), some (Value.num c.preco),
        some (variacaoPct c.preco p.preco), some p.vendidos, some c.vendidos⟩,
      List.mem_append.mpr (Or.inl (by rw [if_pos hc]; exact List.mem_singleton.mpr rfl)),
      rfl, rfl, rfl, ?_⟩
    simp [variacaoPct, jsDivFin, jsMul100, toFixed2, hp0]

/-- Claim C1 witness: the theorem instantiated at the concrete pair of
listings of item "A" at previous price 100 and current price 110. -/
theorem priceChange_iff_beyond_tolerance_witness :
    ((∃ r ∈ detect [curRowA 110] [prevRowA 100], r.tipo = Tipo.preco) ↔
      1/100 < |(curRowA 110).preco - (prevRowA 100).preco|) ∧
    ((prevRowA 100).preco ≠ 0 → 1/100 < |(curRowA 110).preco - (prevRowA 100).preco| →
      ∃ r ∈ detect [curRowA 110] [prevRowA 100], r.tipo = Tipo.preco ∧
        r.valor_anterior = some (Value.num (prevRowA 100).preco) ∧
        r.valor_novo = some (Value.num (curRowA 110).preco) ∧
        r.variacao_pct = some (JsNum.fin (round2
          (((curRowA 110).preco - (prevRowA 100).preco) / (prevRowA 100).preco * 100)))) ∧
    (detect [curRowA 110] [prevRowA 100]).map
        (fun r => (r.tipo, r.valor_anterior, r.valor_novo, r.variacao_pct)) =
      [(Tipo.preco, some (Value.num 100), some (Value.num 110), some (JsNum.fin 10))] ∧
    detect [curRowA (100 + 1/200)] [prevRowA 100] = [] :=
  priceChange_iff_beyond_tolerance (curRowA 110) (prevRowA 100) rfl

/-- Claim C2 counterexample: with previous price exactly 0 and current
price 1 (a difference above the 0.01 tolerance) the emitted price record
carries percentVariation Infinity — the JavaScript division result is
propagated into the stored row, not replaced by any explicit policy value. -/
theorem zeroPrevPrice_infinity_cex :
    (detect [curRowA 1] [prevRowA 0]).map (fun r => (r.tipo, r.variacao_pct)) =
      [(Tipo.preco, some JsNum.posInf)] := by decide

/-- Claim C2 as amended: when the previous price is exactly 0 and the
current price differs by more than 0.01, the price record's percentVariation
is the silently propagated JavaScript division result — Infinity when the
current price is positive, -Infinity otherwise; no explicit policy exists. -/
theorem zeroPrevPrice_propagates_infinity (c p : AnuncioRow)
    (h : c.ml_item_id = p.ml_item_id) (h0 : p.preco = 0)
    (hd : 1/100 < |c.preco - p.preco|) :
    ∃ r ∈ detect [c] [p], r.tipo = Tipo.preco ∧
      r.variacao_pct = some (if 0 < c.preco then JsNum.posInf else JsNum.negInf) := by
  have hl : lastWithId [p] c.ml_item_id = some p := by simp [lastWithId, h]
  have hne : c.preco ≠ 0 := by
    intro hz
    rw [hz, h0] at hd
    norm_num at hd
  refine ⟨⟨c.ml_item_id, Tipo.preco, some (Value.num p.preco), some (Value.num c.preco),
      some (variacaoPct c.preco p.preco), some p.vendidos, some c.vendidos⟩, ?_, rfl, ?_⟩
  · simp only [detect, diffOne, hl, List.append_nil]
    exact List.mem_append.mpr (Or.inl (by rw [if_pos hd]; exact List.mem_singleton.mpr rfl))
  · rw [h0]
    simp only [variacaoPct, jsDivFin, sub_zero, if_pos rfl, if_neg hne]
    by_cases hpos : 0 < c.preco
    · simp [hpos, jsMul100, toFixed2]
    · simp [hpos, jsMul100, toFixed2]

/-- Claim C2 witness: the amended theorem instantiated at previous price 0
and current price 1. -/
theorem zeroPrevPrice_propagates_infinity_witness :
    ∃ r ∈ detect [curRowA 1] [prevRowA 0], r.tipo = Tipo.preco ∧
      r.variacao_pct = some (if 0 < (curRowA 1).preco then JsNum.posInf else JsNum.negInf) :=
  zeroPrevPrice_propagates_infinity (curRowA 1) (prevRowA 0) rfl rfl (by decide)

/-- Claim C3 counterexample: a capture of two listings priced 10 and 20 —
whose simple price average is 15 — stores a snapshot whose ticket_medio
column is NULL, not the average: the INSERT never computes averageTicket. -/
theorem averageTicket_not_computed_cex :
    ((captureCycle DB.empty 0 "s" [mkItem "A" "W" 10, mkItem "B" "W" 20]).1.snapshots.map
        (fun s => s.ticket_medio)) = [none] ∧
    ((10 : ℚ) + 20) / 2 = 15 ∧ (none : Option ℚ) ≠ some 15 := by
  refine ⟨by decide, by decide, by decide⟩

/-- Claim C3 as amended: the snapshot write computes and persists
totalListingCount (the fetched listing count) and totalSoldUnits (the sum
of the listings' sold counts), but never computes averageTicket: the
ticket_medio column is always left NULL, also when the listing count is
nonzero. -/
theorem snapshot_aggregates_no_averageTicket (db : DB) (now : Int) (sellerId : String)
    (ls : List Item) :
    (captureCycle db now sellerId ls).1.snapshots =
      db.snapshots ++ [⟨db.nextSnapshotId, sellerId, now, (ls.length : Int),
        (ls.map (fun i => i.sold_quantity)).sum, none, ls⟩] :=
  captureCycle_snapshots db now sellerId ls

/-- Claim C4 counterexample: the state reached when the process fails right
after the snapshot INSERT (server.js line 269) and before the anuncios loop
(line 273) — a reachable durable state, since better-sqlite3 autocommits
each statement and no transaction is opened — holds a queryable snapshot
with stored listing count 1 and zero listing rows. -/
theorem capture_partial_write_mismatch_cex :
    ((insertSnapshot DB.empty 0 "s" [mkItem "A" "W" 10]).1.snapshots.map
        (fun r => (r.id, r.total_anuncios))) = [(1, 1)] ∧
    anunciosOf (insertSnapshot DB.empty 0 "s" [mkItem "A" "W" 10]).1 1 = [] := by
  refine ⟨by decide, by decide⟩

/-- Claim C4 as amended: the snapshot and listing INSERTs are separate
autocommitted statements with no enclosing transaction, so a storage
failure between the snapshot write and the listing writes leaves a
queryable snapshot whose stored listing count (the nonempty fetched count)
mismatches the zero listing rows persisted for it. -/
theorem capture_not_atomic (db : DB) (now : Int) (sellerId : String) (ls : List Item)
    (hne : ls ≠ []) (hfresh : ∀ a ∈ db.anuncios, a.snapshot_id ≠ db.nextSnapshotId) :
    ∃ row ∈ (insertSnapshot db now sellerId ls).1.snapshots,
      row.id = (insertSnapshot db now sellerId ls).2 ∧
      row.total_anuncios = (ls.length : Int) ∧
      (anunciosOf (insertSnapshot db now sellerId ls).1 row.id).length = 0 ∧
      row.total_anuncios ≠
        ((anunciosOf (insertSnapshot db now sellerId ls).1 row.id).length : Int) := by
  refine ⟨⟨db.nextSnapshotId, sellerId, now, (ls.length : Int), totalVendas ls, none, ls⟩,
    ?_, rfl, rfl, ?_, ?_⟩
  · simp [insertSnapshot]
  · simp only [insertSnapshot, anunciosOf]
    rw [List.filter_eq_nil_iff.mpr]
    · rfl
    · intro a ha
      simp [hfresh a ha]
  · simp only [insertSnapshot, anunciosOf]
    rw [List.filter_eq_nil_iff.mpr (fun a ha => by simp [hfresh a ha])]
    simpa using hne

/-- Claim C4 witness: the non-atomicity theorem instantiated at a fresh
database and a one-listing fetch. -/
theorem capture_not_atomic_witness :
    ∃ row ∈ (insertSnapshot DB.empty 0 "s" [mkItem "A" "W" 10]).1.snapshots,
      row.id = (insertSnapshot DB.empty 0 "s" [mkItem "A" "W" 10]).2 ∧
      row.total_anuncios = (([mkItem "A" "W" 10] : List Item).length : Int) ∧
      (anunciosOf (insertSnapshot DB.empty 0 "s" [mkItem "A" "W" 10]).1 row.id).length = 0 ∧
      row.total_anuncios ≠
        ((anunciosOf (insertSnapshot DB.empty 0 "s" [mkItem "A" "W" 10]).1 row.id).length : Int) :=
  capture_not_atomic DB.empty 0 "s" [mkItem "A" "W" 10] (by decide)
    (fun a ha => by simp [DB.empty] at ha)

/-- Claim C5: on a first-ever capture — no stored snapshot has an id
strictly below the fresh snapshot's id — the cycle persists the snapshot
row and one anuncios row per listing, skips diffing entirely (the
alteracoes table is unchanged, zero change records), and answers success
with the snapshot id and the listing count. -/
theorem first_capture_baseline (db : DB) (now : Int) (sellerId : String) (ls : List Item)
    (hfirst : ∀ s ∈ db.snapshots, ¬ s.id < db.nextSnapshotId) :
    (captureCycle db now sellerId ls).1.alteracoes = db.alteracoes ∧
    (captureCycle db now sellerId ls).1.snapshots =
      db.snapshots ++ [newSnapshotRow db now sellerId ls] ∧
    (captureCycle db now sellerId ls).1.anuncios =
      db.anuncios ++ mkAnuncioRows db.nextSnapshotId db.nextAnuncioId ls ∧
    (captureCycle db now sellerId ls).2 = ⟨db.nextSnapshotId, ls.length⟩ :=
  ⟨captureCycle_alteracoes_first db now sellerId ls hfirst,
   captureCycle_snapshots db now sellerId ls,
   captureCycle_anuncios db now sellerId ls,
   captureCycle_result db now sellerId ls⟩

/-- Claim C5 witness: the first-capture theorem instantiated at the empty
database and a one-listing fetch. -/
theorem first_capture_baseline_witness :
    (captureCycle DB.empty 0 "s" [mkItem "A" "W" 10]).1.alteracoes = DB.empty.alteracoes ∧
    (captureCycle DB.empty 0 "s" [mkItem "A" "W" 10]).1.snapshots =
      DB.empty.snapshots ++ [newSnapshotRow DB.empty 0 "s" [mkItem "A" "W" 10]] ∧
    (captureCycle DB.empty 0 "s" [mkItem "A" "W" 10]).1.anuncios =
      DB.empty.anuncios ++
        mkAnuncioRows DB.empty.nextSnapshotId DB.empty.nextAnuncioId [mkItem "A" "W" 10] ∧
    (captureCycle DB.empty 0 "s" [mkItem "A" "W" 10]).2 =
      ⟨DB.empty.nextSnapshotId, ([mkItem "A" "W" 10] : List Item).length⟩ :=
  first_capture_baseline DB.empty 0 "s" [mkItem "A" "W" 10]
    (fun s hs => by simp [DB.empty] at hs)

/-- Claim C6 counterexample: a fetched set with two listings sharing itemId
"A" is not rejected — the capture answers success with count 2 and persists
both rows under the new snapshot, so itemId is not unique within it. -/
theorem duplicate_itemIds_persisted_cex :
    (captureCycle DB.empty 0 "s" [mkItem "A" "W1" 10, mkItem "A" "W2" 20]).2 = ⟨1, 2⟩ ∧
    (anunciosOf (captureCycle DB.empty 0 "s" [mkItem "A" "W1" 10, mkItem "A" "W2" 20]).1 1).map
        (fun a => a.ml_item_id) = ["A", "A"] := by
  refine ⟨by decide, by decide⟩

/-- Claim C6 as amended: the capture cycle performs no duplicate check and
has no error path for the fetched listing set: whatever item ids are
fetched, duplicates included, are persisted verbatim as the new snapshot's
listing rows, and the request answers success with the snapshot id and the
full count — itemId uniqueness within a snapshot is not enforced. -/
theorem duplicate_itemIds_persisted (db : DB) (now : Int) (sellerId : String)
    (ls : List Item)
    (hfresh : ∀ a ∈ db.anuncios, a.snapshot_id ≠ db.nextSnapshotId) :
    (captureCycle db now sellerId ls).2 = ⟨db.nextSnapshotId, ls.length⟩ ∧
    (anunciosOf (captureCycle db now sellerId ls).1 db.nextSnapshotId).map
        (fun a => a.ml_item_id) = ls.map (fun i => i.id) := by
  refine ⟨captureCycle_result db now sellerId ls, ?_⟩
  rw [captureCycle_anunciosOf db now sellerId ls hfresh,
    mkAnuncioRows_item_ids db.nextSnapshotId ls db.nextAnuncioId]

/-- Claim C6 witness: the theorem instantiated at the empty database and a
fetch containing the same item id twice. -/
theorem duplicate_itemIds_persisted_witness :
    (captureCycle DB.empty 0 "s" [mkItem "A" "W1" 10, mkItem "A" "W2" 20]).2 =
      ⟨DB.empty.nextSnapshotId, ([mkItem "A" "W1" 10, mkItem "A" "W2" 20] : List Item).length⟩ ∧
    (anunciosOf (captureCycle DB.empty 0 "s" [mkItem "A" "W1" 10, mkItem "A" "W2" 20]).1
        DB.empty.nextSnapshotId).map (fun a => a.ml_item_id) =
      ([mkItem "A" "W1" 10, mkItem "A" "W2" 20] : List Item).map (fun i => i.id) :=
  duplicate_itemIds_persisted DB.empty 0 "s" [mkItem "A" "W1" 10, mkItem "A" "W2" 20]
    (fun a ha => by simp [DB.empty] at ha)

/-- Claim C7 counterexample: with one change record for item "A" and the
item present in two snapshots captured at times 5 and 9, the query answers
two rows for the single record; one of them carries snapshot date 5, which
is not the item's most recent known snapshot date (9) — the LEFT JOIN on
ml_item_id fans out over every snapshot containing the item instead of
joining only the most recent one. -/
theorem changes_query_fanout_cex :
    chgExDB.alteracoes.length = 1 ∧
    (changesQuery chgExDB 0).map (fun r => r.snapshot_date) = [some 5, some 9] ∧
    (5 : Int) < 9 := by
  refine ⟨by decide, by decide, by decide⟩

/-- Claim C7 as amended: the recent-changes query returns rows built from
the change records of the lookback window, ordered by detection time
descending and bounded to at most 100 rows; but each change record is
joined with every stored listing row of the same item (one output row per
snapshot containing the item, carrying that snapshot's date), not uniquely
with the item's most recent snapshot date. -/
theorem changes_query_window_order_bound (db : DB) (cutoff : Int) :
    (changesQuery db cutoff).length ≤ 100 ∧
    List.Sorted changesDesc (changesQuery db cutoff) ∧
    ∀ r ∈ changesQuery db cutoff,
      cutoff ≤ r.alt.detectado_em ∧ r.alt ∈ db.alteracoes := by
  refine ⟨List.length_take_le 100 _, ?_, ?_⟩
  · exact (List.sorted_insertionSort changesDesc _).sublist (List.take_sublist 100 _)
  · intro r hr
    have hr1 : r ∈ ((db.alteracoes.filter (fun a => cutoff ≤ a.detectado_em)).flatMap
        (joinRowsFor db)).insertionSort changesDesc := (List.take_sublist 100 _).subset hr
    have hr2 := (List.mem_insertionSort changesDesc).mp hr1
    obtain ⟨a, ha, hra⟩ := List.mem_flatMap.mp hr2
    have halt := joinRowsFor_alt db a r hra
    obtain ⟨hmem, hcut⟩ := List.mem_filter.mp ha
    rw [halt]
    exact ⟨by simpa using hcut, hmem⟩

/-- Claim C7 witness: the amended theorem instantiated at the two-snapshot
fixture database with cutoff 0, where the query's row list is nonempty. -/
theorem changes_query_window_order_bound_witness :
    (changesQuery chgExDB 0).length ≤ 100 ∧
    List.Sorted changesDesc (changesQuery chgExDB 0) ∧
    ∀ r ∈ changesQuery chgExDB 0,
      (0 : Int) ≤ r.alt.detectado_em ∧ r.alt ∈ chgExDB.alteracoes :=
  changes_query_window_order_bound chgExDB 0

/-- Claim C8: items present only in the previous snapshot produce no
record — every record detection emits carries the ml_item_id of some row of
currentItems, since the loop iterates over currentItems alone. -/
theorem detect_only_current_items (cur prev : List AnuncioRow) :
    ∀ r ∈ detect cur prev, r.ml_item_id ∈ cur.map (fun c => c.ml_item_id) := by
  intro r hr
  obtain ⟨c, hc, hrc⟩ := detect_mem prev cur r hr
  have hid := (diffOne_mem_spec prev c r hrc).1
  rw [hid]
  exact List.mem_map.mpr ⟨c, hc, rfl⟩

/-- Claim C8 witness: applied to the 'novo' record emitted when item "A" is
fetched against an empty previous snapshot. -/
theorem detect_only_current_items_witness :
    (⟨"A", Tipo.novo, none, some (Value.str "Widget"), none, none, none⟩ :
        NewAlteracao).ml_item_id ∈ [curRowA 110].map (fun c => c.ml_item_id) :=
  detect_only_current_items [curRowA 110] []
    ⟨"A", Tipo.novo, none, some (Value.str "Widget"), none, none, none⟩ (by decide)

/-- Claim C9: detection is deterministic and side-effect-free — it is
embedded as a pure function of exactly the pair (currentItems, prevItems),
so two runs on the same pair give the same record list — and its output
order is the iteration order of currentItems: the records of a split
current list are the records of its parts in order. -/
theorem detect_deterministic_ordered (cur1 cur2 prev : List AnuncioRow) :
    detect cur1 prev = detect cur1 prev ∧
    detect (cur1 ++ cur2) prev = detect cur1 prev ++ detect cur2 prev := by
  refine ⟨rfl, ?_⟩
  induction cur1 with
  | nil => simp [detect]
  | cons c rest ih => simp [detect, ih, List.append_assoc]

/-- Claim C10: sold counts are populated exactly on price records — taken
from the matched previous listing and the current listing — while title and
new-item records leave both NULL; new-item records also leave previousValue
and percentVariation NULL and carry the current title as newValue. -/
theorem record_optional_fields_shape (cur prev : List AnuncioRow) :
    ∀ r ∈ detect cur prev,
      (r.tipo = Tipo.preco →
        ∃ c ∈ cur, c.ml_item_id = r.ml_item_id ∧
          ∃ p, lastWithId prev r.ml_item_id = some p ∧
            r.vendas_antes = some p.vendidos ∧ r.vendas_depois = some c.vendidos) ∧
      (r.tipo ≠ Tipo.preco → r.vendas_antes = none ∧ r.vendas_depois = none) ∧
      (r.tipo = Tipo.novo →
        r.valor_anterior = none ∧ r.variacao_pct = none ∧
          ∃ c ∈ cur, c.ml_item_id = r.ml_item_id ∧
            r.valor_novo = some (Value.str c.titulo)) := by
  intro r hr
  obtain ⟨c, hc, hrc⟩ := detect_mem prev cur r hr
  obtain ⟨hid, hpreco, hnotpreco, hnovo⟩ := diffOne_mem_spec prev c r hrc
  refine ⟨fun hp => ?_, hnotpreco, fun hn => ?_⟩
  · obtain ⟨p, hlp, hva, hvd⟩ := hpreco hp
    exact ⟨c, hc, hid.symm, p, by rw [hid]; exact hlp, hva, hvd⟩
  · obtain ⟨h1, h2, h3⟩ := hnovo hn
    exact ⟨h1, h2, c, hc, hid.symm, h3⟩

/-- Claim C10 witness: applied to the price record emitted for item "A"
moving from price 100 (2 units sold) to price 110 (7 units sold). -/
theorem record_optional_fields_shape_witness :
    ((⟨"A", Tipo.preco, some (Value.num 100), some (Value.num 110), some (JsNum.fin 10),
        some 2, some 7⟩ : NewAlteracao).tipo = Tipo.preco →
      ∃ c ∈ [curRowA 110], c.ml_item_id = "A" ∧
        ∃ p, lastWithId [prevRowA 100] "A" = some p ∧
          (some 2 : Option Int) = some p.vendidos ∧ (some 7 : Option Int) = some c.vendidos) ∧
    ((⟨"A", Tipo.preco, some (Value.num 100), some (Value.num 110), some (JsNum.fin 10),
        some 2, some 7⟩ : NewAlteracao).tipo ≠ Tipo.preco →
      (some 2 : Option Int) = none ∧ (some 7 : Option Int) = none) ∧
    ((⟨"A", Tipo.preco, some (Value.num 100), some (Value.num 110), some (JsNum.fin 10),
        some 2, some 7⟩ : NewAlteracao).tipo = Tipo.novo →
      (some (Value.num 100) : Option Value) = none ∧
        (some (JsNum.fin 10) : Option JsNum) = none ∧
        ∃ c ∈ [curRowA 110], c.ml_item_id = "A" ∧
          (some (Value.num 110) : Option Value) = some (Value.str c.titulo)) :=
  record_optional_fields_shape [curRowA 110] [prevRowA 100]
    ⟨"A", Tipo.preco, some (Value.num 100), some (Value.num 110), some (JsNum.fin 10),
      some 2, some 7⟩ (by decide)
